import Mathlib

/-!
Verification development for the kiosk speech/translation backend.

The development shallowly embeds the two protocol-level components of the
repository: the WAV container codec (`app/services/speech/stt_base.py` and
`pcm16_to_wav` in `app/routes/tts.py`) and the Google OAuth
authorization-code-with-PKCE flow (`app/services/auth/google_oauth.py` and
the `/auth/login`, `/auth/callback` route handlers in `app/routes/auth.py`).

Byte strings are modelled as `List Nat` (each element one byte), Python
`str` values as Lean `String`, with Python's `strip`, `lower`,
`startswith`, `rstrip` modelled as structurally recursive functions on the
character list (`pyStrip`, `pyLower`, `pyStartswith`, `rstripSlash`).
-/

namespace Backend

/-! ## Byte-level helpers (`struct.pack`, `int.from_bytes`, slicing) -/

/-- Python slicing `b[off : off + n]` on a byte string. -/
def slice (b : List Nat) (off n : Nat) : List Nat :=
  (b.drop off).take n

/-- `_read_u16_le`: `int.from_bytes(b[off:off+2], "little")`.  A slice that
runs past the end of the buffer is shorter, which is the same as padding
with zero bytes at the high end. -/
def readU16 (b : List Nat) (off : Nat) : Nat :=
  b.getD off 0 + 256 * b.getD (off + 1) 0

/-- `_read_u32_le`: `int.from_bytes(b[off:off+4], "little")`. -/
def readU32 (b : List Nat) (off : Nat) : Nat :=
  b.getD off 0 + 256 * b.getD (off + 1) 0 + 65536 * b.getD (off + 2) 0 +
    16777216 * b.getD (off + 3) 0

/-- `struct.pack("<H", n)`: two little-endian bytes (values `< 2 ^ 16` are
encoded exactly; Python raises for larger values, which the callers never
produce for the inputs considered here). -/
def u16le (n : Nat) : List Nat :=
  [n % 256, n / 256 % 256]

/-- `struct.pack("<I", n)`: four little-endian bytes. -/
def u32le (n : Nat) : List Nat :=
  [n % 256, n / 256 % 256, n / 65536 % 256, n / 16777216 % 256]

/-- ASCII bytes of a literal tag such as `b"RIFF"`. -/
def asciiBytes (s : String) : List Nat :=
  s.data.map Char.toNat

/-! ## `pcm16_to_wav` (app/routes/tts.py, lines 25-52) -/

/-- `pcm16_to_wav(pcm, sample_rate_hz, channels)`: prepend a canonical
44-byte RIFF/WAVE PCM header, or return `b""` for empty input. -/
def pcm16ToWav (pcm : List Nat) (sampleRateHz : Nat) (channels : Nat) : List Nat :=
  if pcm = [] then []
  else
    let bitsPerSample := 16
    let byteRate := sampleRateHz * channels * (bitsPerSample / 8)
    let blockAlign := channels * (bitsPerSample / 8)
    let dataSize := pcm.length
    let riffSize := 36 + dataSize
    asciiBytes "RIFF" ++ u32le riffSize ++ asciiBytes "WAVE" ++
      asciiBytes "fmt " ++ u32le 16 ++ u16le 1 ++ u16le channels ++
      u32le sampleRateHz ++ u32le byteRate ++ u16le blockAlign ++
      u16le bitsPerSample ++ asciiBytes "data" ++ u32le dataSize ++ pcm

/-- The 44-byte header described by the specification of `synthesize`,
written from the spec's words: `"RIFF"`, `riff_size = 36 + len(pcm_bytes)`
as a little-endian u32, `"WAVE"`, a 16-byte `"fmt "` chunk carrying format
tag 1, the channel count, the sample rate, `byte_rate = rate * channels * 2`,
`block_align = channels * 2` and 16 bits-per-sample, then `"data"` with
size `len(pcm_bytes)`. -/
def specWavHeader (rate channels dataLen : Nat) : List Nat :=
  asciiBytes "RIFF" ++ u32le (36 + dataLen) ++ asciiBytes "WAVE" ++
    asciiBytes "fmt " ++ u32le 16 ++ u16le 1 ++ u16le channels ++
    u32le rate ++ u32le (rate * channels * 2) ++ u16le (channels * 2) ++
    u16le 16 ++ asciiBytes "data" ++ u32le dataLen

/-! ## WAV parsing (app/services/speech/stt_base.py) -/

/-- `is_wav`: at least 12 bytes, `b[0:4] == b"RIFF"` and `b[8:12] == b"WAVE"`. -/
def isWav (b : List Nat) : Bool :=
  decide (12 ≤ b.length) && (slice b 0 4 == asciiBytes "RIFF") &&
    (slice b 8 4 == asciiBytes "WAVE")

/-- The mutable locals of the chunk-scanning loop of `parse_wav_details`.
`dataOffset` is an `Int` because the source initializes `data_offset = -1`. -/
structure ScanState where
  fmtFound : Bool := false
  dataFound : Bool := false
  sampleRate : Nat := 0
  channels : Nat := 0
  audioFormat : Nat := 0
  bitsPerSample : Nat := 0
  dataOffset : Int := -1
  dataSize : Nat := 0
  deriving Repr, DecidableEq

/-- One loop body of `parse_wav_details` once the chunk id `cid` and its
declared size `csz` are known to fit in the buffer; `j` is the offset of the
chunk payload.  A `fmt ` chunk shorter than 16 bytes raises
`ValueError("Invalid WAV fmt chunk")`; a `fmt ` chunk records format tag,
channels, sample rate and bits-per-sample; a `data` chunk records offset and
size; any other chunk id leaves the state unchanged. -/
def stepChunk (b : List Nat) (j : Nat) (cid : List Nat) (csz : Nat)
    (st : ScanState) : Except String ScanState :=
  if cid = asciiBytes "fmt " then
    if csz < 16 then .error "Invalid WAV fmt chunk"
    else .ok { st with
      audioFormat := readU16 b j
      channels := readU16 b (j + 2)
      sampleRate := readU32 b (j + 4)
      bitsPerSample := readU16 b (j + 14)
      fmtFound := true }
  else if cid = asciiBytes "data" then
    .ok { st with dataOffset := (j : Int), dataSize := csz, dataFound := true }
  else .ok st

/-- The `while i + 8 <= len(wav_bytes)` chunk walk of `parse_wav_details`,
with an explicit fuel argument so the definition is structurally recursive.
Each iteration advances `i` by at least 8, so `b.length` iterations always
suffice (`scanChunksF_fuel` below); running out of fuel behaves like the
loop condition turning false. -/
def scanChunksF (b : List Nat) : Nat → Nat → ScanState → Except String ScanState
  | 0, _, st => .ok st
  | fuel + 1, i, st =>
    if i + 8 ≤ b.length then
      let csz := readU32 b (i + 4)
      if b.length < i + 8 + csz then .ok st
      else
        match stepChunk b (i + 8) (slice b i 4) csz st with
        | .error e => .error e
        | .ok st' =>
          if st'.fmtFound && st'.dataFound then .ok st'
          else scanChunksF b fuel (i + 8 + csz + csz % 2) st'
    else .ok st

/-- The chunk walk with its canonical (always sufficient) fuel. -/
def scanChunks (b : List Nat) (i : Nat) (st : ScanState) : Except String ScanState :=
  scanChunksF b b.length i st

/-- `parse_wav_details(wav_bytes)`: header check, chunk walk from offset 12,
then the post-loop validations, in source order.  Returns
`(sample_rate_hz, channels, bits_per_sample, audio_format, data_offset)`. -/
def parseWavDetails (b : List Nat) :
    Except String (Nat × Nat × Nat × Nat × Int) :=
  if isWav b then
    match scanChunks b 12 {} with
    | .error e => .error e
    | .ok st =>
      if ¬ (st.fmtFound = true ∧ st.dataFound = true) then
        .error "WAV fmt/data chunk not found"
      else if st.audioFormat ≠ 1 ∧ st.audioFormat ≠ 3 ∧ st.audioFormat ≠ 65534 then
        .error ("Unsupported WAV audio format: " ++ toString st.audioFormat)
      else if st.sampleRate = 0 ∨ 192000 < st.sampleRate then
        .error ("Unreasonable WAV sample rate: " ++ toString st.sampleRate)
      else if st.channels = 0 ∨ 2 < st.channels then
        .error ("Unsupported channel count: " ++ toString st.channels)
      else if st.bitsPerSample ≠ 16 then
        .error ("Unsupported bits_per_sample: " ++ toString st.bitsPerSample ++
          " (expected 16)")
      else if st.dataOffset < 0 ∨ b.length < st.dataOffset + st.dataSize then
        .error "Invalid WAV data chunk bounds"
      else .ok (st.sampleRate, st.channels, st.bitsPerSample, st.audioFormat,
        st.dataOffset)
  else .error "Not a WAV file"

/-- The second chunk walk of `extract_wav_pcm16`, which re-finds the `data`
chunk to recover its declared size (`data_size` stays `None` when the walk
breaks out or falls off the end). -/
def findDataSizeF (b : List Nat) : Nat → Nat → Option Nat
  | 0, _ => none
  | fuel + 1, i =>
    if i + 8 ≤ b.length then
      let csz := readU32 b (i + 4)
      if b.length < i + 8 + csz then none
      else if slice b i 4 = asciiBytes "data" then some csz
      else findDataSizeF b fuel (i + 8 + csz + csz % 2)
    else none

/-- `extract_wav_pcm16(wav_bytes)`: parse, require a PCM-compatible format
tag and 16 bits, re-find the `data` size, slice the payload, and reject an
empty payload.  Returns `(pcm_bytes, sample_rate_hz, channels)`. -/
def extractWavPcm16 (b : List Nat) :
    Except String (List Nat × Nat × Nat) :=
  match parseWavDetails b with
  | .error e => .error e
  | .ok (sr, ch, bps, fmt, dataOff) =>
    if fmt ≠ 1 ∧ fmt ≠ 65534 then
      .error ("WAV must be PCM16 (audio_format=" ++ toString fmt ++ ")")
    else if bps ≠ 16 then .error "WAV must be 16-bit PCM"
    else
      match findDataSizeF b b.length 12 with
      | none => .error "WAV data chunk not found"
      | some dataSize =>
        let pcm := slice b dataOff.toNat dataSize
        if pcm = [] then .error "Empty WAV audio data"
        else .ok (pcm, sr, ch)

/-- Decidable equality for `Except`, so concrete runs of the embedded
functions can be checked by `decide`. -/
instance {ε α : Type} [DecidableEq ε] [DecidableEq α] :
    DecidableEq (Except ε α) := fun a b =>
  match a, b with
  | .error e, .error f => decidable_of_iff (e = f) (by simp)
  | .ok x, .ok y => decidable_of_iff (x = y) (by simp)
  | .error _, .ok _ => isFalse (by simp)
  | .ok _, .error _ => isFalse (by simp)

/-! ## Python string primitives

Modelled on the character list of the string so that every operation is
structurally recursive and evaluable inside the kernel.  Python's `str`
operations work on Unicode; these models use `Char.isWhitespace` and
`Char.toLower`, which agree with Python on the ASCII data these code paths
manipulate. -/

/-- Python `s.strip()`: remove leading and trailing whitespace. -/
def pyStrip (s : String) : String :=
  ⟨((s.data.dropWhile Char.isWhitespace).reverse.dropWhile
      Char.isWhitespace).reverse⟩

/-- Python `s.lower()`. -/
def pyLower (s : String) : String :=
  ⟨s.data.map Char.toLower⟩

/-! ## PKCE helpers (app/services/auth/google_oauth.py) -/

/-- One character of the URL-safe base64 alphabet (RFC 4648 §5). -/
def b64Char (n : Nat) : Char :=
  if n < 26 then Char.ofNat (65 + n)
  else if n < 52 then Char.ofNat (97 + (n - 26))
  else if n < 62 then Char.ofNat (48 + (n - 52))
  else if n = 62 then Char.ofNat 45
  else Char.ofNat 95

/-- URL-safe base64 of a byte list, without padding (the source strips the
trailing `=` signs with `rstrip(b"=")`). -/
def b64urlChars : List Nat → List Char
  | a :: b :: c :: rest =>
    b64Char (a / 4) :: b64Char (a % 4 * 16 + b / 16) ::
      b64Char (b % 16 * 4 + c / 64) :: b64Char (c % 64) :: b64urlChars rest
  | [a, b] => [b64Char (a / 4), b64Char (a % 4 * 16 + b / 16), b64Char (b % 16 * 4)]
  | [a] => [b64Char (a / 4), b64Char (a % 4 * 16)]
  | [] => []

/-- `_b64url(data)`: `base64.urlsafe_b64encode(data).rstrip(b"=")`. -/
def b64urlEncode (bs : List Nat) : String :=
  ⟨b64urlChars bs⟩

/-- `secrets.token_urlsafe(n)`: the URL-safe base64 (no padding) of `n`
random bytes; the random bytes are passed in explicitly. -/
def tokenUrlsafe (randomBytes : List Nat) : String :=
  b64urlEncode randomBytes

/-- Python string slicing `s[:n]`. -/
def pyTake (s : String) (n : Nat) : String :=
  ⟨s.data.take n⟩

/-- UTF-8 bytes of a string (`verifier.encode("utf-8")`). -/
def utf8Bytes (s : String) : List Nat :=
  s.toUTF8.toList.map UInt8.toNat

/-- `_pkce_verifier()`: `secrets.token_urlsafe(64)` clamped to at most 128
characters and padded with a second `token_urlsafe(64)` up to 43 when too
short.  The two draws of randomness are the byte-list arguments. -/
def pkceVerifier (r1 r2 : List Nat) : String :=
  let v := pyTake (tokenUrlsafe r1) 128
  if v.length < 43 then pyTake (v ++ tokenUrlsafe r2) 43 else v

/-- `_pkce_challenge(verifier)`: `_b64url(sha256(verifier.encode("utf-8")))`.
SHA-256 itself (`hashlib.sha256`) is an external primitive, passed in as a
function on byte lists. -/
def pkceChallenge (sha256 : List Nat → List Nat) (verifier : String) : String :=
  b64urlEncode (sha256 (utf8Bytes verifier))

/-- The failure values of the OAuth module.  The source defines a single
exception class `OAuthError`, modelled by `oauthError`; the spec's error
taxonomy additionally names a distinct `ConfigurationError`, modelled from
the spec as the `configurationError` constructor so that claims about the
taxonomy can be stated — the code never raises it. -/
inductive OAuthFailure where
  | oauthError (msg : String)
  | configurationError (msg : String)
  deriving Repr, DecidableEq

/-- `GoogleOAuthClient.build_authorize_url()`.  `cid`/`sec` are the values
produced by the configuration loader (`_try_load_client_secrets_json`),
`ru` is `GOOGLE_OAUTH_REDIRECT_URI`, `stateRand` and `vr1`/`vr2` are the
random bytes drawn by `secrets.token_urlsafe`, and `scopesCfg` is
`GOOGLE_OAUTH_SCOPES`.  Returns `(state, verifier, params)` where `params`
is the query-parameter list that `urlencode` serializes into the
authorization URL `AUTH_URL ++ "?" ++ urlencode(params)`. -/
def buildAuthorizeUrl (cid sec ru : String) (stateRand vr1 vr2 : List Nat)
    (sha256 : List Nat → List Nat) (scopesCfg : List String) :
    Except OAuthFailure (String × String × List (String × String)) :=
  let cidT := pyStrip cid
  let secT := pyStrip sec
  if cidT = "" ∨ secT = "" then
    .error (.oauthError ("Google OAuth client ID/secret missing. " ++
      "Set GOOGLE_OAUTH_CLIENT_ID + GOOGLE_OAUTH_CLIENT_SECRET " ++
      "(or GOOGLE_CLIENT_ID + GOOGLE_CLIENT_SECRET), " ++
      "or set GOOGLE_OAUTH_CLIENT_SECRETS_FILE to your downloaded OAuth JSON."))
  else if pyStrip ru = "" then
    .error (.oauthError ("GOOGLE_OAUTH_REDIRECT_URI is empty. " ++
      "Set BASE_URL so redirect becomes <BASE_URL>/api/auth/callback."))
  else
    let state := tokenUrlsafe stateRand
    let verifier := pkceVerifier vr1 vr2
    let challenge := pkceChallenge sha256 verifier
    let scopes := if scopesCfg = [] then ["openid", "email", "profile"] else scopesCfg
    let scope := String.intercalate " " (scopes.filter fun s => !(pyStrip s == ""))
    .ok (state, verifier,
      [("client_id", cidT), ("redirect_uri", pyStrip ru),
       ("response_type", "code"), ("scope", scope), ("state", state),
       ("code_challenge", challenge), ("code_challenge_method", "S256"),
       ("access_type", "online"), ("include_granted_scopes", "true"),
       ("prompt", "select_account")])

/-! ## Safe-redirect validator and callback (app/routes/auth.py) -/

/-- Python `s.startswith(p)`. -/
def pyStartswith (s p : String) : Bool :=
  p.data.isPrefixOf s.data

/-- Python `s.rstrip("/")`: drop trailing slash characters. -/
def rstripSlash (s : String) : String :=
  ⟨(s.data.reverse.dropWhile fun c => c == Char.ofNat 47).reverse⟩

/-- `_safe_next_url(next_url)` with the configured `FRONTEND_URL` passed
explicitly: strip, reject empty and scheme-relative `//` targets, accept
relative `/` paths, accept absolute targets prefixed by the (stripped,
slash-right-stripped) front-end origin, reject everything else. -/
def safeNextUrl (frontendUrl nextUrl : String) : String :=
  let nxt := pyStrip nextUrl
  if nxt = "" then ""
  else if pyStartswith nxt "//" then ""
  else if pyStartswith nxt "/" then nxt
  else
    let fe := rstripSlash (pyStrip frontendUrl)
    if fe ≠ "" ∧ pyStartswith nxt fe = true then nxt else ""

/-- The session user record written under the `user` key on callback
success. -/
structure SessionUser where
  id : String
  email : Option String
  name : Option String
  picture : Option String
  googleSub : String
  deriving Repr, DecidableEq

/-- The cookie-backed session mapping, restricted to the keys the OAuth
flow uses (`oauth_state`, `oauth_verifier`, `oauth_next`, `user`). -/
structure Session where
  oauthState : Option String := none
  oauthVerifier : Option String := none
  oauthNext : Option String := none
  user : Option SessionUser := none
  deriving Repr, DecidableEq

/-- The callback query parameters (`request.query_params`). -/
structure CallbackIn where
  qpError : Option String := none
  qpErrorDescription : Option String := none
  qpCode : Option String := none
  qpState : Option String := none
  deriving Repr, DecidableEq

/-- A validated token response: `exchange_code` guarantees a non-empty
`access_token` before returning. -/
structure Tokens where
  accessToken : String
  deriving Repr, DecidableEq

/-- The userinfo payload fields read by the callback. -/
structure Userinfo where
  sub : String
  email : String
  name : String
  picture : String
  deriving Repr, DecidableEq

/-- The outbound HTTPS calls the callback can make. -/
inductive NetCall where
  | tokenExchange
  | userinfoFetch
  deriving Repr, DecidableEq

/-- The failure modes of the callback route: the provider-reported error
(`HTTPException(400, detail)` from the `error` query parameter), the CSRF
state-check failure (`HTTPException(400, "Invalid OAuth state")`, the
spec's `ProtocolError("invalid state")`), an `OAuthError` from token
exchange or userinfo fetch, and the missing-subject rejection. -/
inductive CallbackFailure where
  | providerError (detail : String)
  | invalidState
  | oauthFail (msg : String)
  | missingSub
  deriving Repr, DecidableEq

/-- A row of the `users` table. -/
structure DbUser where
  id : String
  googleSub : String
  email : Option String
  name : Option String
  picture : Option String
  deriving Repr, DecidableEq

/-- `User.upsert_google_user` (app/db/models.py): update an existing row
for the subject, overwriting a field only when the new value is non-empty;
otherwise insert a fresh row with empty-normalized optional fields. -/
def upsertGoogleUser (existing : Option DbUser)
    (freshId googleSub email name picture : String) : DbUser :=
  match existing with
  | some u =>
    { u with
      email := if email = "" then u.email else some email
      name := if name = "" then u.name else some name
      picture := if picture = "" then u.picture else some picture }
  | none =>
    { id := freshId
      googleSub := googleSub
      email := if pyLower (pyStrip email) = "" then none
        else some (pyLower (pyStrip email))
      name := if pyStrip name = "" then none else some (pyStrip name)
      picture := if pyStrip picture = "" then none
        else some (pyStrip picture) }

/-- The session record built from the upserted user row. -/
def sessionUserOfDb (u : DbUser) : SessionUser :=
  ⟨u.id, u.email, u.name, u.picture, u.googleSub⟩

/-- The `/auth/callback` handler (app/routes/auth.py, lines 100-154),
with its two network effects passed in as oracles: `exchangeResult` is the
outcome of `oauth.exchange_code` and `userinfoResult` of
`oauth.fetch_userinfo`; `existing` is the database row for the subject (if
any) and `freshId` the id a fresh row would receive.  Returns the updated
session, the outcome, and the list of network calls performed, in order.
The final redirect-vs-JSON response selection of the route is outside the
modelled scope. -/
def callback (qp : CallbackIn) (sess : Session)
    (exchangeResult : Except String Tokens)
    (userinfoResult : Except String Userinfo)
    (existing : Option DbUser) (freshId : String) :
    Session × Except CallbackFailure SessionUser × List NetCall :=
  if (qp.qpError.getD "") ≠ "" then
    let detail :=
      if (qp.qpErrorDescription.getD "") ≠ "" then qp.qpErrorDescription.getD ""
      else if (qp.qpError.getD "") ≠ "" then qp.qpError.getD ""
      else "OAuth error"
    (sess, .error (.providerError detail), [])
  else
    let code := pyStrip (qp.qpCode.getD "")
    let state := pyStrip (qp.qpState.getD "")
    let expectedState := pyStrip (sess.oauthState.getD "")
    let verifier := pyStrip (sess.oauthVerifier.getD "")
    let sess' := { sess with
      oauthState := none, oauthVerifier := none, oauthNext := none }
    if code = "" ∨ state = "" ∨ expectedState = "" ∨
        state ≠ expectedState ∨ verifier = "" then
      (sess', .error .invalidState, [])
    else
      match exchangeResult with
      | .error e => (sess', .error (.oauthFail e), [.tokenExchange])
      | .ok _ =>
        match userinfoResult with
        | .error e =>
          (sess', .error (.oauthFail e), [.tokenExchange, .userinfoFetch])
        | .ok ui =>
          let sub := pyStrip ui.sub
          let email := pyLower (pyStrip ui.email)
          let name := pyStrip ui.name
          let picture := pyStrip ui.picture
          if sub = "" then
            (sess', .error .missingSub, [.tokenExchange, .userinfoFetch])
          else
            let user := upsertGoogleUser existing freshId sub email name picture
            let su := sessionUserOfDb user
            ({ sess' with user := some su }, .ok su,
              [.tokenExchange, .userinfoFetch])

/-! ## Theorems -/

theorem specWavHeader_length (rate channels dataLen : Nat) :
    (specWavHeader rate channels dataLen).length = 44 := by
  simp [specWavHeader, asciiBytes, u16le, u32le]

/-- Any two sufficient fuel amounts give the same scan result: the fueled
loop is the `while` loop of the source. -/
theorem scanChunksF_fuel (b : List Nat) :
    ∀ f₁ f₂ i st, b.length ≤ i + 8 * f₁ → b.length ≤ i + 8 * f₂ →
      scanChunksF b f₁ i st = scanChunksF b f₂ i st := by
  intro f₁
  induction f₁ with
  | zero =>
    intro f₂ i st h₁ h₂
    have hcond : ¬ (i + 8 ≤ b.length) := by omega
    cases f₂ with
    | zero => rfl
    | succ m => simp [scanChunksF, hcond]
  | succ k ih =>
    intro f₂ i st h₁ h₂
    by_cases hcond : i + 8 ≤ b.length
    · obtain ⟨m, rfl⟩ : ∃ m, f₂ = m + 1 := by
        cases f₂ with
        | zero => omega
        | succ m => exact ⟨m, rfl⟩
      simp only [scanChunksF, hcond, if_true]
      set csz := readU32 b (i + 4) with hcsz
      by_cases hbig : b.length < i + 8 + csz
      · simp [hbig]
      · simp only [hbig, if_false]
        cases hstep : stepChunk b (i + 8) (slice b i 4) csz st with
        | error e => rfl
        | ok st' =>
          by_cases hdone : st'.fmtFound && st'.dataFound
          · simp [hdone]
          · simp only [hdone, if_false]
            exact ih m (i + 8 + csz + csz % 2) st' (by omega) (by omega)
    · cases f₂ with
      | zero => simp [scanChunksF, hcond]
      | succ m => simp [scanChunksF, hcond]

/-! ## Supporting lemmas for the WAV theorems -/

theorem pcm16ToWav_eq (pcm : List Nat) (hne : pcm ≠ []) (rate ch : Nat) :
    pcm16ToWav pcm rate ch = specWavHeader rate ch pcm.length ++ pcm := by
  simp only [pcm16ToWav, if_neg hne, specWavHeader]

/-- One unfolding of the fueled chunk walk. -/
theorem scanChunksF_succ (b : List Nat) (fuel i : Nat) (st : ScanState) :
    scanChunksF b (fuel + 1) i st =
    if i + 8 ≤ b.length then
      let csz := readU32 b (i + 4)
      if b.length < i + 8 + csz then .ok st
      else
        match stepChunk b (i + 8) (slice b i 4) csz st with
        | .error e => .error e
        | .ok st' =>
          if st'.fmtFound && st'.dataFound then .ok st'
          else scanChunksF b fuel (i + 8 + csz + csz % 2) st'
    else .ok st := rfl

/-- One unfolding of the data-size re-scan of `extract_wav_pcm16`. -/
theorem findDataSizeF_succ (b : List Nat) (fuel i : Nat) :
    findDataSizeF b (fuel + 1) i =
    if i + 8 ≤ b.length then
      let csz := readU32 b (i + 4)
      if b.length < i + 8 + csz then none
      else if slice b i 4 = asciiBytes "data" then some csz
      else findDataSizeF b fuel (i + 8 + csz + csz % 2)
    else none := rfl

set_option maxHeartbeats 1000000

/-- C1 (amended).  Round-trip: for any NONEMPTY PCM16 byte buffer `pcm`
with even length whose encoded size fits a u32 and any sample rate
`rate ∈ [8000, 192000]`, `extract_wav_pcm16 (pcm16_to_wav pcm rate 1)`
succeeds and returns the PCM bytes verbatim together with `rate` and
channel count 1.  (The original claim also covered the empty buffer, but
`pcm16_to_wav` short-circuits to `b""` on empty input and
`extract_wav_pcm16` rejects `b""` as "Not a WAV file"; see
`wav_roundtrip_fails_on_empty_buffer`.) -/
theorem wav_parse_synthesize_roundtrip (pcm : List Nat) (rate : Nat)
    (hne : pcm ≠ []) (hEven : pcm.length % 2 = 0)
    (hlo : 8000 ≤ rate) (hhi : rate ≤ 192000)
    (hfit : 36 + pcm.length < 4294967296) :
    extractWavPcm16 (pcm16ToWav pcm rate 1) = .ok (pcm, rate, 1) := by
  rw [pcm16ToWav_eq pcm hne rate 1]
  set w := specWavHeader rate 1 pcm.length ++ pcm with hw
  have hwe : w = 82::73::70::70::((36+pcm.length)%256)::((36+pcm.length)/256%256)::((36+pcm.length)/65536%256)::((36+pcm.length)/16777216%256)::87::65::86::69::102::109::116::32::16::0::0::0::1::0::1::0::(rate%256)::(rate/256%256)::(rate/65536%256)::(rate/16777216%256)::((rate*1*2)%256)::((rate*1*2)/256%256)::((rate*1*2)/65536%256)::((rate*1*2)/16777216%256)::2::0::16::0::100::97::116::97::(pcm.length%256)::(pcm.length/256%256)::(pcm.length/65536%256)::(pcm.length/16777216%256)::pcm := by
    rw [hw]; rfl
  have hlen : w.length = 44 + pcm.length := by
    rw [hwe]; simp only [List.length_cons]; omega
  have hisw : isWav w = true := by rw [hwe]; rfl
  have h16 : readU32 w (12 + 4) = 16 := by rw [hwe]; rfl
  have h20 : readU16 w (12 + 8) = 1 := by rw [hwe]; rfl
  have h22 : readU16 w (12 + 8 + 2) = 1 := by rw [hwe]; rfl
  have h24 : readU32 w (12 + 8 + 4) = rate := by
    have h : readU32 w (12 + 8 + 4) = rate % 256 + 256 * (rate / 256 % 256) +
        65536 * (rate / 65536 % 256) + 16777216 * (rate / 16777216 % 256) := by
      rw [hwe]; rfl
    rw [h]; omega
  have h34 : readU16 w (12 + 8 + 14) = 16 := by rw [hwe]; rfl
  have h40 : readU32 w (36 + 4) = pcm.length := by
    have h : readU32 w (36 + 4) = pcm.length % 256 + 256 * (pcm.length / 256 % 256) +
        65536 * (pcm.length / 65536 % 256) +
        16777216 * (pcm.length / 16777216 % 256) := by
      rw [hwe]; rfl
    rw [h]; omega
  have hs12 : slice w 12 4 = asciiBytes "fmt " := by rw [hwe]; rfl
  have hs36 : slice w 36 4 = asciiBytes "data" := by rw [hwe]; rfl
  have hdrop : slice w 44 pcm.length = pcm := by
    have h1 : w.drop 44 = pcm := by rw [hwe]; rfl
    rw [slice, h1, List.take_length]
  clear_value w
  have hstep1 : stepChunk w (12 + 8) (slice w 12 4) 16 ({} : ScanState) =
      .ok ⟨true, false, rate, 1, 1, 16, -1, 0⟩ := by
    rw [hs12, stepChunk, if_pos rfl, if_neg (by decide : ¬ (16:Nat) < 16)]
    simp only [h20, h22, h24, h34]
  have hstep2 : stepChunk w (36 + 8) (slice w 36 4) pcm.length
      (⟨true, false, rate, 1, 1, 16, -1, 0⟩ : ScanState) =
      .ok ⟨true, true, rate, 1, 1, 16, 44, pcm.length⟩ := by
    rw [hs36, stepChunk, if_neg (by decide : ¬ asciiBytes "data" = asciiBytes "fmt ")]
    rw [if_pos rfl]
    norm_num
  have hscan : scanChunks w 12 {} =
      .ok ⟨true, true, rate, 1, 1, 16, 44, pcm.length⟩ := by
    rw [scanChunks, hlen]
    rw [show (44 + pcm.length) = (43 + pcm.length) + 1 from by omega,
      scanChunksF_succ]
    rw [if_pos (show 12 + 8 ≤ w.length by omega)]
    simp only [h16]
    rw [if_neg (show ¬ w.length < 12 + 8 + 16 by omega)]
    rw [hstep1]
    simp only []
    norm_num
    rw [show (43 + pcm.length) = (42 + pcm.length) + 1 from by omega,
      scanChunksF_succ]
    rw [if_pos (show 36 + 8 ≤ w.length by omega)]
    simp only [h40]
    rw [if_neg (show ¬ w.length < 36 + 8 + pcm.length by omega)]
    rw [hstep2]
    simp
  have hfind : findDataSizeF w w.length 12 = some pcm.length := by
    rw [hlen]
    rw [show (44 + pcm.length) = (43 + pcm.length) + 1 from by omega,
      findDataSizeF_succ]
    rw [if_pos (show 12 + 8 ≤ w.length by omega)]
    simp only [h16]
    rw [if_neg (show ¬ w.length < 12 + 8 + 16 by omega)]
    rw [hs12]
    rw [if_neg (by decide : ¬ asciiBytes "fmt " = asciiBytes "data")]
    rw [show (12 + 8 + 16 + 16 % 2) = 36 from by norm_num]
    rw [show (43 + pcm.length) = (42 + pcm.length) + 1 from by omega,
      findDataSizeF_succ]
    rw [if_pos (show 36 + 8 ≤ w.length by omega)]
    simp only [h40]
    rw [if_neg (show ¬ w.length < 36 + 8 + pcm.length by omega)]
    rw [hs36, if_pos rfl]
  have hparse : parseWavDetails w = .ok (rate, 1, 16, 1, 44) := by
    rw [parseWavDetails, if_pos hisw, hscan]
    simp only []
    rw [if_neg (by decide), if_neg (by decide)]
    rw [if_neg (show ¬ (rate = 0 ∨ 192000 < rate) by omega)]
    rw [if_neg (by decide), if_neg (by decide)]
    rw [if_neg (show ¬ ((44:Int) < 0 ∨ (w.length:Int) < 44 + (pcm.length:Nat)) by omega)]
  rw [extractWavPcm16.eq_def, hparse]
  simp only []
  rw [if_neg (by decide), if_neg (by decide)]
  rw [hfind]
  simp only []
  rw [show ((44:Int).toNat) = 44 from rfl, hdrop, if_neg hne]

/-- C1, counterexample to the original claim.  The empty buffer has even
length, yet `pcm16_to_wav` returns `b""` for it and `extract_wav_pcm16`
rejects `b""`, so the round-trip fails at `b = b""`, `rate = 24000`. -/
theorem wav_roundtrip_fails_on_empty_buffer :
    pcm16ToWav [] 24000 1 = [] ∧
      extractWavPcm16 (pcm16ToWav [] 24000 1) = .error "Not a WAV file" :=
  ⟨rfl, rfl⟩

/-- C1, witness: the round-trip theorem applied to the concrete buffer
`[5, 6]` at 24000 Hz. -/
theorem wav_parse_synthesize_roundtrip_witness :
    extractWavPcm16 (pcm16ToWav [5, 6] 24000 1) = .ok ([5, 6], 24000, 1) :=
  wav_parse_synthesize_roundtrip [5, 6] 24000 (by decide) (by decide)
    (by decide) (by decide) (by decide)

/-- C5.  `pcm16_to_wav` returns the empty byte sequence on empty input and
otherwise exactly the 44-byte header described by the spec (RIFF size
`36 + len`, `"WAVE"`, 16-byte `"fmt "` chunk with format tag 1, the channel
count, the sample rate, `byte_rate = rate * channels * 2`,
`block_align = channels * 2`, 16 bits per sample, then `"data"` with size
`len`) followed by the PCM payload verbatim. -/
theorem synthesize_output_format (pcm : List Nat) (rate channels : Nat) :
    pcm16ToWav pcm rate channels =
      (if pcm = [] then []
       else specWavHeader rate channels pcm.length ++ pcm) ∧
    (specWavHeader rate channels pcm.length).length = 44 := by
  constructor
  · by_cases h : pcm = []
    · simp [pcm16ToWav, h]
    · rw [if_neg h, pcm16ToWav_eq pcm h rate channels]
  · exact specWavHeader_length rate channels pcm.length

/-- Every successful `parse_wav_details` result passed the post-loop
validations: bits-per-sample is 16, the channel count is 1 or 2, the sample
rate lies in `(0, 192000]`, and the format tag is PCM, IEEE float, or
extensible.  (Shared helper for the claims about parse results.) -/
theorem parseWavDetails_ok_bounds (b : List Nat) (sr ch bps fmt : Nat)
    (off : Int) (h : parseWavDetails b = .ok (sr, ch, bps, fmt, off)) :
    bps = 16 ∧ (ch = 1 ∨ ch = 2) ∧ 1 ≤ sr ∧ sr ≤ 192000 ∧
      (fmt = 1 ∨ fmt = 3 ∨ fmt = 65534) := by
  rw [parseWavDetails] at h
  split at h
  · split at h
    · exact absurd h (by simp)
    · split at h
      · exact absurd h (by simp)
      · split at h
        · exact absurd h (by simp)
        · split at h
          · exact absurd h (by simp)
          · split at h
            · exact absurd h (by simp)
            · split at h
              · exact absurd h (by simp)
              · split at h
                · exact absurd h (by simp)
                · rename_i st _ hfmt hsr hch hbps _
                  simp only [Except.ok.injEq, Prod.mk.injEq] at h
                  obtain ⟨h1, h2, h3, h4, h5⟩ := h
                  subst h1; subst h2; subst h3; subst h4
                  refine ⟨by omega, by omega, by omega, by omega, by omega⟩
  · exact absurd h (by simp)

/-- C7, counterexample to the original claim.  A WAV whose `fmt ` chunk
declares 4000 Hz — below the claimed 8000 Hz lower bound — is parsed
successfully: the code only rejects `sample_rate <= 0 or > 192000`. -/
theorem parse_accepts_sub8000_rate :
    parseWavDetails (pcm16ToWav [0, 0] 4000 1) = .ok (4000, 1, 16, 1, 44) :=
  rfl

/-- C7 (amended).  Every value returned by `parse_wav_details` satisfies
`bits_per_sample = 16`, `channel_count ∈ {1, 2}` and
`1 ≤ sample_rate_hz ≤ 192000`.  (The original claim's lower bound of
8000 Hz is not enforced by the code: the check is `sample_rate <= 0`, so
any positive rate up to 192000 is accepted; see
`parse_accepts_sub8000_rate`.) -/
theorem parse_result_invariant (b : List Nat) (sr ch bps fmt : Nat)
    (off : Int) (h : parseWavDetails b = .ok (sr, ch, bps, fmt, off)) :
    bps = 16 ∧ (ch = 1 ∨ ch = 2) ∧ 1 ≤ sr ∧ sr ≤ 192000 := by
  obtain ⟨h1, h2, h3, h4, _⟩ := parseWavDetails_ok_bounds b sr ch bps fmt off h
  exact ⟨h1, h2, h3, h4⟩

/-- C7, witness: the invariant applied to a concrete parsed WAV. -/
theorem parse_result_invariant_witness :
    (16 : Nat) = 16 ∧ ((1 : Nat) = 1 ∨ (1 : Nat) = 2) ∧
      (1 : Nat) ≤ 24000 ∧ (24000 : Nat) ≤ 192000 :=
  parse_result_invariant (pcm16ToWav [1, 2] 24000 1) 24000 1 16 1 44 rfl

theorem isWav_length (b : List Nat) (h : isWav b = true) : 12 ≤ b.length := by
  simp only [isWav, Bool.and_eq_true, decide_eq_true_eq] at h
  exact h.1.1

theorem parse_fmt_short (b : List Nat) (hw : isWav b = true)
    (h12 : slice b 12 4 = asciiBytes "fmt ") (hsz : readU32 b 16 < 16)
    (hfit : 20 + readU32 b 16 ≤ b.length) :
    parseWavDetails b = .error "Invalid WAV fmt chunk" := by
  have hlen : 20 ≤ b.length := by omega
  obtain ⟨m, hm⟩ : ∃ m, b.length = m + 1 := ⟨b.length - 1, by omega⟩
  rw [parseWavDetails, if_pos hw, scanChunks, hm, scanChunksF_succ]
  rw [if_pos (show 12 + 8 ≤ b.length by omega)]
  have h16 : readU32 b (12 + 4) = readU32 b 16 := rfl
  rw [h16]
  rw [if_neg (show ¬ b.length < 12 + 8 + readU32 b 16 by omega)]
  rw [h12, stepChunk, if_pos rfl, if_pos hsz]

theorem parse_data_first_overrun (b : List Nat) (hw : isWav b = true)
    (_h12 : slice b 12 4 = asciiBytes "data")
    (hover : b.length < 20 + readU32 b 16) :
    parseWavDetails b = .error "WAV fmt/data chunk not found" := by
  have hlen : 12 ≤ b.length := isWav_length b hw
  obtain ⟨m, hm⟩ : ∃ m, b.length = m + 1 := ⟨b.length - 1, by omega⟩
  rw [parseWavDetails, if_pos hw, scanChunks, hm, scanChunksF_succ]
  by_cases h20 : 12 + 8 ≤ b.length
  · rw [if_pos h20]
    have h16 : readU32 b (12 + 4) = readU32 b 16 := rfl
    rw [h16]
    rw [if_pos (show b.length < 12 + 8 + readU32 b 16 by omega)]
    simp
  · rw [if_neg h20]
    simp

theorem scan_skip_unknown (b : List Nat) (i : Nat) (st : ScanState)
    (hin : i + 8 ≤ b.length)
    (hnf : slice b i 4 ≠ asciiBytes "fmt ")
    (hnd : slice b i 4 ≠ asciiBytes "data")
    (hfit : i + 8 + readU32 b (i + 4) ≤ b.length)
    (hnb : ¬ (st.fmtFound = true ∧ st.dataFound = true)) :
    scanChunks b i st =
      scanChunks b (i + 8 + readU32 b (i + 4) + readU32 b (i + 4) % 2) st := by
  obtain ⟨m, hm⟩ : ∃ m, b.length = m + 1 := ⟨b.length - 1, by omega⟩
  rw [scanChunks, scanChunks, hm, scanChunksF_succ]
  rw [if_pos (show i + 8 ≤ b.length by omega)]
  rw [if_neg (show ¬ b.length < i + 8 + readU32 b (i + 4) by omega)]
  rw [stepChunk, if_neg hnf, if_neg hnd]
  simp only []
  rw [if_neg (show ¬ (st.fmtFound && st.dataFound) = true by
    simp only [Bool.and_eq_true]; exact hnb)]
  exact scanChunksF_fuel b m (m + 1)
    (i + 8 + readU32 b (i + 4) + readU32 b (i + 4) % 2) st (by omega) (by omega)

theorem scan_stop_when_both (b : List Nat) (i : Nat) (st : ScanState)
    (hin : i + 8 ≤ b.length)
    (hd : slice b i 4 = asciiBytes "data")
    (hfit : i + 8 + readU32 b (i + 4) ≤ b.length)
    (hf : st.fmtFound = true) :
    scanChunks b i st =
      .ok { st with
        dataFound := true
        dataOffset := ((i + 8 : Nat) : Int)
        dataSize := readU32 b (i + 4) } := by
  obtain ⟨m, hm⟩ : ∃ m, b.length = m + 1 := ⟨b.length - 1, by omega⟩
  rw [scanChunks, hm, scanChunksF_succ]
  rw [if_pos (show i + 8 ≤ b.length by omega)]
  rw [if_neg (show ¬ b.length < i + 8 + readU32 b (i + 4) by omega)]
  rw [hd, stepChunk, if_neg (by decide : ¬ asciiBytes "data" = asciiBytes "fmt ")]
  rw [if_pos rfl]
  simp only []
  rw [if_pos (by simp [hf])]

/-- C6.  Parse failure and chunk-walk behavior: (1) a buffer that does not
start with "RIFF"/"WAVE" fails with "Not a WAV file"; (2) a `fmt ` chunk
whose declared size is below 16 (and fits the buffer) fails with
"Invalid WAV fmt chunk"; (3) a `data` chunk whose declared size would read
past the end of the buffer leads to failure (the walk breaks out and no
data chunk is recorded); (4) parse never succeeds with bits-per-sample
other than 16 or a channel count outside {1, 2}; (5) a chunk with an
unrecognized id is skipped, advancing by its declared size plus one pad
byte when the size is odd, without failing; (6) once a `fmt ` chunk has
been seen, scanning stops at the `data` chunk. -/
theorem parse_failure_and_skip_cases :
    (∀ b : List Nat, isWav b = false →
      parseWavDetails b = .error "Not a WAV file") ∧
    (∀ b : List Nat, isWav b = true → slice b 12 4 = asciiBytes "fmt " →
      readU32 b 16 < 16 → 20 + readU32 b 16 ≤ b.length →
      parseWavDetails b = .error "Invalid WAV fmt chunk") ∧
    (∀ b : List Nat, isWav b = true → slice b 12 4 = asciiBytes "data" →
      b.length < 20 + readU32 b 16 →
      parseWavDetails b = .error "WAV fmt/data chunk not found") ∧
    (∀ (b : List Nat) (sr ch bps fmt : Nat) (off : Int),
      parseWavDetails b = .ok (sr, ch, bps, fmt, off) →
      bps = 16 ∧ (ch = 1 ∨ ch = 2)) ∧
    (∀ (b : List Nat) (i : Nat) (st : ScanState),
      i + 8 ≤ b.length → slice b i 4 ≠ asciiBytes "fmt " →
      slice b i 4 ≠ asciiBytes "data" →
      i + 8 + readU32 b (i + 4) ≤ b.length →
      ¬ (st.fmtFound = true ∧ st.dataFound = true) →
      scanChunks b i st =
        scanChunks b (i + 8 + readU32 b (i + 4) + readU32 b (i + 4) % 2) st) ∧
    (∀ (b : List Nat) (i : Nat) (st : ScanState),
      i + 8 ≤ b.length → slice b i 4 = asciiBytes "data" →
      i + 8 + readU32 b (i + 4) ≤ b.length → st.fmtFound = true →
      scanChunks b i st =
        .ok { st with
          dataFound := true
          dataOffset := ((i + 8 : Nat) : Int)
          dataSize := readU32 b (i + 4) }) := by
  refine ⟨?_, parse_fmt_short, parse_data_first_overrun, ?_,
    scan_skip_unknown, scan_stop_when_both⟩
  · intro b h
    simp [parseWavDetails, h]
  · intro b sr ch bps fmt off h
    obtain ⟨h1, h2, _⟩ := parseWavDetails_ok_bounds b sr ch bps fmt off h
    exact ⟨h1, h2⟩

/-- C6, witness: each failure / skip case applied at a concrete buffer. -/
theorem parse_failure_and_skip_cases_witness :
    parseWavDetails [1, 2, 3] = .error "Not a WAV file" ∧
    parseWavDetails
        [82, 73, 70, 70, 0, 0, 0, 0, 87, 65, 86, 69,
         102, 109, 116, 32, 8, 0, 0, 0, 0, 0, 0, 0, 0, 0, 0, 0] =
      .error "Invalid WAV fmt chunk" ∧
    parseWavDetails
        [82, 73, 70, 70, 0, 0, 0, 0, 87, 65, 86, 69,
         100, 97, 116, 97, 100, 0, 0, 0] =
      .error "WAV fmt/data chunk not found" ∧
    ((16 : Nat) = 16 ∧ ((2 : Nat) = 1 ∨ (2 : Nat) = 2)) ∧
    scanChunks
        [82, 73, 70, 70, 0, 0, 0, 0, 87, 65, 86, 69,
         76, 73, 83, 84, 4, 0, 0, 0, 1, 2, 3, 4] 12 {} =
      scanChunks
        [82, 73, 70, 70, 0, 0, 0, 0, 87, 65, 86, 69,
         76, 73, 83, 84, 4, 0, 0, 0, 1, 2, 3, 4] 24 {} ∧
    scanChunks
        [82, 73, 70, 70, 0, 0, 0, 0, 87, 65, 86, 69,
         100, 97, 116, 97, 2, 0, 0, 0, 9, 9] 12 { fmtFound := true } =
      .ok ⟨true, true, 0, 0, 0, 0, 20, 2⟩ :=
  ⟨parse_failure_and_skip_cases.1 [1, 2, 3] rfl,
   parse_failure_and_skip_cases.2.1 _ rfl rfl (by decide) (by decide),
   parse_failure_and_skip_cases.2.2.1 _ rfl rfl (by decide),
   parse_failure_and_skip_cases.2.2.2.1 (pcm16ToWav [1, 2] 16000 2)
     16000 2 16 1 44 rfl,
   parse_failure_and_skip_cases.2.2.2.2.1 _ 12 {} (by decide) (by decide)
     (by decide) (by decide) (by decide),
   parse_failure_and_skip_cases.2.2.2.2.2 _ 12 { fmtFound := true }
     (by decide) rfl (by decide) rfl⟩

end Backend


namespace Backend

/-- C8 (amended).  `build_authorize_url` fails whenever the client
id/secret or the redirect URI cannot be resolved from configuration — but
with `OAuthError`, the module's single exception class, not with a distinct
`ConfigurationError`: no such class exists in the code (see
`build_url_config_failure_is_oauth_error`). -/
theorem build_url_missing_config_fails (cid sec ru : String)
    (stateRand vr1 vr2 : List Nat) (sha256 : List Nat → List Nat)
    (scopesCfg : List String)
    (h : pyStrip cid = "" ∨ pyStrip sec = "" ∨ pyStrip ru = "") :
    ∃ msg, buildAuthorizeUrl cid sec ru stateRand vr1 vr2 sha256 scopesCfg =
      .error (.oauthError msg) := by
  rw [buildAuthorizeUrl]
  by_cases h1 : pyStrip cid = "" ∨ pyStrip sec = ""
  · exact ⟨_, by rw [if_pos h1]⟩
  · have h2 : pyStrip ru = "" := by tauto
    exact ⟨_, by rw [if_neg h1, if_pos h2]⟩

/-- C8, witness. -/
theorem build_url_missing_config_fails_witness :
    ∃ msg, buildAuthorizeUrl "" "sec" "ru" [] [] [] (fun bs => bs) [] =
      .error (.oauthError msg) :=
  build_url_missing_config_fails "" "sec" "ru" [] [] [] (fun bs => bs) []
    (Or.inl (by decide))

theorem pyStartswith_ne_empty (s p : String) (h : pyStartswith s p = true)
    (hp : p ≠ "") : s ≠ "" := by
  intro hs
  subst hs
  rw [pyStartswith] at h
  rw [List.isPrefixOf_iff_prefix] at h
  have hnil : p.data = [] := List.prefix_nil.mp h
  apply hp
  cases p with
  | mk d =>
    change d = [] at hnil
    subst hnil
    rfl

theorem pyStartswith_slash_of_dslash (s : String)
    (h : pyStartswith s "//" = true) : pyStartswith s "/" = true := by
  rw [pyStartswith] at h ⊢
  rw [List.isPrefixOf_iff_prefix] at h ⊢
  exact List.IsPrefix.trans (by decide) h

/-- C9.  The safe-redirect validator returns "" for a stripped target
beginning with "//"; returns the stripped target when it begins with "/"
(and not "//") or when the configured front-end origin is non-empty and a
prefix of it; and returns "" for every other input. -/
theorem safe_next_url_cases (fe nu : String) :
    (pyStartswith (pyStrip nu) "//" = true → safeNextUrl fe nu = "") ∧
    (pyStartswith (pyStrip nu) "//" = false →
      pyStartswith (pyStrip nu) "/" = true →
      safeNextUrl fe nu = pyStrip nu) ∧
    (pyStartswith (pyStrip nu) "/" = false →
      rstripSlash (pyStrip fe) ≠ "" →
      pyStartswith (pyStrip nu) (rstripSlash (pyStrip fe)) = true →
      safeNextUrl fe nu = pyStrip nu) ∧
    (pyStartswith (pyStrip nu) "/" = false →
      (rstripSlash (pyStrip fe) = "" ∨
        pyStartswith (pyStrip nu) (rstripSlash (pyStrip fe)) = false) →
      safeNextUrl fe nu = "") := by
  refine ⟨?_, ?_, ?_, ?_⟩
  · intro h
    have hne : pyStrip nu ≠ "" := pyStartswith_ne_empty _ _ h (by decide)
    rw [safeNextUrl]
    simp only []
    rw [if_neg hne, if_pos h]
  · intro h1 h2
    have hne : pyStrip nu ≠ "" := pyStartswith_ne_empty _ _ h2 (by decide)
    rw [safeNextUrl]
    simp only []
    rw [if_neg hne, if_neg (by simp [h1]), if_pos h2]
  · intro h1 hfe h3
    have hne : pyStrip nu ≠ "" := pyStartswith_ne_empty _ _ h3 hfe
    have h0 : pyStartswith (pyStrip nu) "//" = false := by
      cases hss : pyStartswith (pyStrip nu) "//" with
      | false => rfl
      | true => exact absurd (pyStartswith_slash_of_dslash _ hss) (by simp [h1])
    rw [safeNextUrl]
    simp only []
    rw [if_neg hne, if_neg (by simp [h0]), if_neg (by simp [h1]),
      if_pos ⟨hfe, h3⟩]
  · intro h1 h2
    rw [safeNextUrl]
    simp only []
    by_cases hne : pyStrip nu = ""
    · rw [if_pos hne]
    · rw [if_neg hne]
      by_cases hdd : pyStartswith (pyStrip nu) "//" = true
      · rw [if_pos hdd]
      · rw [if_neg hdd, if_neg (by simp [h1])]
        rw [if_neg (show ¬ (rstripSlash (pyStrip fe) ≠ "" ∧
            pyStartswith (pyStrip nu) (rstripSlash (pyStrip fe)) = true) from ?_)]
        rcases h2 with h | h
        · exact fun hc => hc.1 h
        · exact fun hc => by rw [h] at hc; exact absurd hc.2 (by simp)

/-- C9, witness. -/
theorem safe_next_url_cases_witness :
    safeNextUrl "https://fe.example" " //evil.example/x " = "" ∧
    safeNextUrl "https://fe.example" " /kiosk.html " = "/kiosk.html" ∧
    safeNextUrl "https://fe.example/" "https://fe.example/home" =
      "https://fe.example/home" ∧
    safeNextUrl "https://fe.example" "https://bad.example/x" = "" :=
  ⟨(safe_next_url_cases "https://fe.example" " //evil.example/x ").1 (by decide),
   (safe_next_url_cases "https://fe.example" " /kiosk.html ").2.1
     (by decide) (by decide),
   (safe_next_url_cases "https://fe.example/" "https://fe.example/home").2.2.1
     (by decide) (by decide) (by decide),
   (safe_next_url_cases "https://fe.example" "https://bad.example/x").2.2.2
     (by decide) (Or.inr (by decide))⟩


/-- C8, counterexample to the original claim.  With empty configuration,
`build_authorize_url` raises the module's `OAuthError` — the failure is
NOT a `ConfigurationError` distinct from `OAuthError` as the claim
requires; the code has only the one exception class. -/
theorem build_url_config_failure_is_oauth_error :
    buildAuthorizeUrl "" "" "" [] [] [] (fun bs => bs) [] =
      .error (.oauthError ("Google OAuth client ID/secret missing. " ++
        "Set GOOGLE_OAUTH_CLIENT_ID + GOOGLE_OAUTH_CLIENT_SECRET " ++
        "(or GOOGLE_CLIENT_ID + GOOGLE_CLIENT_SECRET), " ++
        "or set GOOGLE_OAUTH_CLIENT_SECRETS_FILE to your downloaded OAuth JSON.")) := by
  rfl

theorem callback_clears_oauth_keys (qp : CallbackIn) (sess : Session)
    (ex : Except String Tokens) (ui : Except String Userinfo)
    (existing : Option DbUser) (freshId : String)
    (h : qp.qpError.getD "" = "") :
    ∃ u, (callback qp sess ex ui existing freshId).1 =
      { sess with
        oauthState := none
        oauthVerifier := none
        oauthNext := none
        user := u } := by
  cases ex with
  | error e =>
    simp only [callback, h, ne_eq, not_true_eq_false, if_false]
    split
    · exact ⟨sess.user, rfl⟩
    · exact ⟨sess.user, rfl⟩
  | ok t =>
    cases ui with
    | error e =>
      simp only [callback, h, ne_eq, not_true_eq_false, if_false]
      split
      · exact ⟨sess.user, rfl⟩
      · exact ⟨sess.user, rfl⟩
    | ok u =>
      simp only [callback, h, ne_eq, not_true_eq_false, if_false]
      split
      · exact ⟨sess.user, rfl⟩
      · split
        · exact ⟨sess.user, rfl⟩
        · exact ⟨_, rfl⟩

/-- C2 (amended).  For every callback invocation in which the provider
did NOT report an `error` query parameter: if the received code is empty,
the received state is empty, the stored state is empty, the stored
verifier is empty, or the received state differs from the stored state,
the handler fails with `HTTPException(400, "Invalid OAuth state")` (the
spec's `ProtocolError("invalid state")`) and performs no network call.
(When the provider reports an error parameter, the handler fails earlier
with the provider's error instead; see
`callback_provider_error_not_invalid_state`.) -/
theorem callback_invalid_state_guard (qp : CallbackIn) (sess : Session)
    (ex : Except String Tokens) (ui : Except String Userinfo)
    (existing : Option DbUser) (freshId : String)
    (hnoerr : qp.qpError.getD "" = "")
    (hbad : pyStrip (qp.qpCode.getD "") = "" ∨
      pyStrip (qp.qpState.getD "") = "" ∨
      pyStrip (sess.oauthState.getD "") = "" ∨
      pyStrip (qp.qpState.getD "") ≠ pyStrip (sess.oauthState.getD "") ∨
      pyStrip (sess.oauthVerifier.getD "") = "") :
    callback qp sess ex ui existing freshId =
      ({ sess with
          oauthState := none
          oauthVerifier := none
          oauthNext := none }, .error .invalidState, []) := by
  rw [callback]
  rw [if_neg (by rw [hnoerr]; simp)]
  simp only []
  rw [if_pos hbad]

/-- C2, witness: a state mismatch at concrete inputs. -/
theorem callback_invalid_state_guard_witness :
    callback { qpCode := some "c", qpState := some "x" }
        { oauthState := some "y", oauthVerifier := some "v" }
        (.error "boom") (.error "boom") none "id" =
      ({ oauthState := none, oauthVerifier := none, oauthNext := none,
         user := none }, .error .invalidState, []) :=
  callback_invalid_state_guard { qpCode := some "c", qpState := some "x" }
    { oauthState := some "y", oauthVerifier := some "v" }
    (.error "boom") (.error "boom") none "id" rfl (by decide)

/-- C2, counterexample to the original claim.  An invocation whose query
carries `error=access_denied` and an empty `code` fails with the
provider-error failure (detail "access_denied"), not with
`ProtocolError("invalid state")` as the unconditional claim requires. -/
theorem callback_provider_error_not_invalid_state :
    callback { qpError := some "access_denied", qpCode := some "" }
        { oauthState := some "s", oauthVerifier := some "v" }
        (.error "x") (.error "x") none "id" =
      ({ oauthState := some "s", oauthVerifier := some "v" },
        .error (.providerError "access_denied"), []) := by
  decide

/-- C3, counterexample to the original claim.  On the provider-error path
(`error` query parameter present) the handler returns before the one-time
cleanup: the session still holds `oauth_state`, `oauth_verifier` and
`oauth_next` afterwards, so erasure does NOT happen on every invocation. -/
theorem callback_no_erasure_on_provider_error :
    (callback { qpError := some "access_denied" }
        { oauthState := some "s", oauthVerifier := some "v",
          oauthNext := some "/n" } (.error "x") (.error "x") none "id").1 =
      { oauthState := some "s", oauthVerifier := some "v",
        oauthNext := some "/n" } := by
  decide

/-- C3 (amended).  On every invocation in which the provider did not
report an `error` query parameter, the handler erases the one-time
`oauth_state` / `oauth_verifier` / `oauth_next` session keys, on success
and failure paths alike; consequently a second such invocation on the
resulting session fails the state-equality check with
`HTTPException(400, "Invalid OAuth state")` and performs no network call
(no replay).  (On the provider-error path the keys are NOT erased; see
`callback_no_erasure_on_provider_error`.) -/
theorem callback_erasure_and_replay (qp qp2 : CallbackIn) (sess : Session)
    (ex ex2 : Except String Tokens) (ui ui2 : Except String Userinfo)
    (existing existing2 : Option DbUser) (freshId freshId2 : String)
    (h1 : qp.qpError.getD "" = "") (h2 : qp2.qpError.getD "" = "") :
    ((callback qp sess ex ui existing freshId).1.oauthState = none ∧
      (callback qp sess ex ui existing freshId).1.oauthVerifier = none ∧
      (callback qp sess ex ui existing freshId).1.oauthNext = none) ∧
    (callback qp2 (callback qp sess ex ui existing freshId).1
        ex2 ui2 existing2 freshId2).2 = (.error .invalidState, []) := by
  obtain ⟨u, hu⟩ := callback_clears_oauth_keys qp sess ex ui existing freshId h1
  have h2nd : ∀ s : Session, s.oauthState = none →
      (callback qp2 s ex2 ui2 existing2 freshId2).2 =
        (.error .invalidState, []) := by
    intro s hs
    rw [callback]
    rw [if_neg (by rw [h2]; simp)]
    simp only []
    rw [if_pos (Or.inr (Or.inr (Or.inl (by rw [hs]; rfl))))]
  refine ⟨⟨by rw [hu], by rw [hu], by rw [hu]⟩, h2nd _ (by rw [hu])⟩

/-- C3, witness. -/
theorem callback_erasure_and_replay_witness :
    (((callback { qpCode := some "c", qpState := some "s" }
        { oauthState := some "s", oauthVerifier := some "v",
          oauthNext := some "/n" } (.error "boom") (.error "boom")
        none "id").1.oauthState = none ∧
      (callback { qpCode := some "c", qpState := some "s" }
        { oauthState := some "s", oauthVerifier := some "v",
          oauthNext := some "/n" } (.error "boom") (.error "boom")
        none "id").1.oauthVerifier = none ∧
      (callback { qpCode := some "c", qpState := some "s" }
        { oauthState := some "s", oauthVerifier := some "v",
          oauthNext := some "/n" } (.error "boom") (.error "boom")
        none "id").1.oauthNext = none) ∧
    (callback { qpCode := some "c", qpState := some "s" }
        ((callback { qpCode := some "c", qpState := some "s" }
          { oauthState := some "s", oauthVerifier := some "v",
            oauthNext := some "/n" } (.error "boom") (.error "boom")
          none "id").1) (.error "boom") (.error "boom") none "id").2 =
      (.error .invalidState, [])) :=
  callback_erasure_and_replay { qpCode := some "c", qpState := some "s" }
    { qpCode := some "c", qpState := some "s" }
    { oauthState := some "s", oauthVerifier := some "v",
      oauthNext := some "/n" }
    (.error "boom") (.error "boom") (.error "boom") (.error "boom")
    none none "id" "id" rfl rfl

/-- C10.  On every successful callback, the email taken from the provider
userinfo is whitespace-stripped and lowercased before being passed to the
user upsert and (through the upserted row) written into the session user
record, while subject, display name and picture are stripped but not
case-normalized. -/
theorem callback_success_normalization (qp : CallbackIn) (sess : Session)
    (t : Tokens) (uiRaw : Userinfo) (existing : Option DbUser)
    (freshId : String)
    (hnoerr : qp.qpError.getD "" = "")
    (hvalid : ¬ (pyStrip (qp.qpCode.getD "") = "" ∨
      pyStrip (qp.qpState.getD "") = "" ∨
      pyStrip (sess.oauthState.getD "") = "" ∨
      pyStrip (qp.qpState.getD "") ≠ pyStrip (sess.oauthState.getD "") ∨
      pyStrip (sess.oauthVerifier.getD "") = ""))
    (hsub : pyStrip uiRaw.sub ≠ "") :
    callback qp sess (.ok t) (.ok uiRaw) existing freshId =
      ({ sess with
          oauthState := none
          oauthVerifier := none
          oauthNext := none
          user := some (sessionUserOfDb (upsertGoogleUser existing freshId
            (pyStrip uiRaw.sub) (pyLower (pyStrip uiRaw.email))
            (pyStrip uiRaw.name) (pyStrip uiRaw.picture))) },
        .ok (sessionUserOfDb (upsertGoogleUser existing freshId
          (pyStrip uiRaw.sub) (pyLower (pyStrip uiRaw.email))
          (pyStrip uiRaw.name) (pyStrip uiRaw.picture))),
        [.tokenExchange, .userinfoFetch]) := by
  rw [callback]
  rw [if_neg (by rw [hnoerr]; simp)]
  simp only []
  rw [if_neg hvalid]
  rw [if_neg hsub]

/-- C10, witness: mixed-case email is lowercased, name/picture/sub keep
their case. -/
theorem callback_success_normalization_witness :
    callback { qpCode := some "c", qpState := some "s" }
        { oauthState := some "s", oauthVerifier := some "v" }
        (.ok ⟨"tok"⟩) (.ok ⟨" Sub1 ", " A@B.com ", " Name ", " pic "⟩)
        none "id1" =
      ({ oauthState := none, oauthVerifier := none, oauthNext := none,
          user := some ⟨"id1", some "a@b.com", some "Name", some "pic",
            "Sub1"⟩ },
        .ok ⟨"id1", some "a@b.com", some "Name", some "pic", "Sub1"⟩,
        [.tokenExchange, .userinfoFetch]) :=
  callback_success_normalization
    { qpCode := some "c", qpState := some "s" }
    { oauthState := some "s", oauthVerifier := some "v" }
    ⟨"tok"⟩ ⟨" Sub1 ", " A@B.com ", " Name ", " pic "⟩ none "id1"
    rfl (by decide) (by decide)


/-- Base64url output is never shorter than its input byte list. -/
theorem b64urlChars_length_ge : ∀ bs : List Nat, bs.length ≤ (b64urlChars bs).length
  | [] => by simp [b64urlChars]
  | [a] => by simp [b64urlChars]
  | [a, b] => by simp [b64urlChars]
  | a :: b :: c :: rest => by
    have ih := b64urlChars_length_ge rest
    simp only [b64urlChars, List.length_cons]
    omega

/-- With the 64 random bytes drawn by `secrets.token_urlsafe(64)`, the
PKCE verifier always has length in [43, 128]. -/
theorem pkceVerifier_length (r1 r2 : List Nat) (h64 : r1.length = 64) :
    43 ≤ (pkceVerifier r1 r2).length ∧ (pkceVerifier r1 r2).length ≤ 128 := by
  have henc : 64 ≤ (b64urlChars r1).length := by
    have := b64urlChars_length_ge r1
    omega
  have hvlen : (pyTake (tokenUrlsafe r1) 128).length =
      min 128 (b64urlChars r1).length := by
    simp [pyTake, tokenUrlsafe, b64urlEncode, String.length]
  rw [pkceVerifier]
  rw [if_neg (by omega : ¬ (pyTake (tokenUrlsafe r1) 128).length < 43)]
  omega

/-- C4.  Every `code_verifier` produced by `build_authorize_url` (with the
64 random bytes that `secrets.token_urlsafe(64)` consumes) has length in
[43, 128], and the `code_challenge` placed in the authorization URL's
query parameters equals `base64url_no_pad(sha256(utf8(code_verifier)))`. -/
theorem pkce_verifier_length_and_challenge (cid sec ru : String)
    (stateRand vr1 vr2 : List Nat) (sha256 : List Nat → List Nat)
    (scopesCfg : List String) (st v : String)
    (params : List (String × String)) (h64 : vr1.length = 64)
    (h : buildAuthorizeUrl cid sec ru stateRand vr1 vr2 sha256 scopesCfg =
      .ok (st, v, params)) :
    (43 ≤ v.length ∧ v.length ≤ 128) ∧
      params.lookup "code_challenge" =
        some (b64urlEncode (sha256 (utf8Bytes v))) := by
  rw [buildAuthorizeUrl] at h
  split at h
  · exact absurd h (by simp)
  · split at h
    · exact absurd h (by simp)
    · simp only [Except.ok.injEq, Prod.mk.injEq] at h
      obtain ⟨h1, h2, h3⟩ := h
      subst h1; subst h2; subst h3
      refine ⟨pkceVerifier_length vr1 vr2 h64, ?_⟩
      simp [List.lookup, pkceChallenge]

/-- C4, witness: the PKCE property applied at a fully concrete
configuration and randomness. -/
theorem pkce_verifier_length_and_challenge_witness :
    (43 ≤ (pkceVerifier (List.replicate 64 0) []).length ∧
      (pkceVerifier (List.replicate 64 0) []).length ≤ 128) ∧
      ([("client_id", "cid"), ("redirect_uri", "https://r.example/cb"),
        ("response_type", "code"), ("scope", "openid email profile"),
        ("state", tokenUrlsafe [0]),
        ("code_challenge",
          pkceChallenge (fun _ => [1]) (pkceVerifier (List.replicate 64 0) [])),
        ("code_challenge_method", "S256"), ("access_type", "online"),
        ("include_granted_scopes", "true"),
        ("prompt", "select_account")].lookup "code_challenge") =
        some (b64urlEncode
          ((fun _ => [1]) (utf8Bytes (pkceVerifier (List.replicate 64 0) [])))) :=
  pkce_verifier_length_and_challenge "cid" "sec" "https://r.example/cb"
    [0] (List.replicate 64 0) [] (fun _ => [1]) [] (tokenUrlsafe [0])
    (pkceVerifier (List.replicate 64 0) []) _ (by decide) (by decide)

end Backend
